import Mathlib

/-!
Verification of the mintory backend orchestrator core.

This file gives a shallow embedding, in Lean, of the run-state store
(`apps/backend/simple_state.py`), the HTTP orchestration endpoints
(`apps/backend/main.py`), the vote tally agent
(`apps/backend/agents/vote.py`) and the lore / artist agents
(`apps/backend/agents/lore.py`, `apps/backend/agents/artist.py`), and
proves or refutes the specified properties of these components.

Modelling conventions:
- Python dictionaries holding run records are modelled by the `Rec`
  structure (the fields the endpoints inspect, plus an association list
  for the remaining opaque fields).
- Python exceptions are modelled with `Except`; an uncaught exception is
  a `.error` result.
- External collaborators (the MCP ledger client, the LLM client, the
  image/pinning services) are modelled as oracle inputs so that theorems
  quantify over every possible sequence of collaborator behaviours.
- Console printing and the duplicated mid-stage store writes (pure
  side channels re-emitting the same messages for SSE) are not modelled;
  claims are about returned partial updates and the store operations.
-/

namespace Mintory

/-! ### Messages and run records (apps/backend/simple_state.py) -/

/-- An entry of a run record `messages` list.  Python stores a dict
`(agent, level, message, ts, ...)`; the store deduplicates on
`msg.get("ts")` (absent key gives `None`, here `none`).  The remaining
payload is collapsed into opaque `agent`/`level`/`text` fields. -/
structure Msg where
  ts : Option String
  agent : String
  level : String
  text : String
  deriving DecidableEq, Repr

/-- The fields of a stored run record.  `checkpoint` and `lore` are the
fields `resume_run` manipulates; every other key (run id, date label,
art, vote, mint, error, ...) lives in the opaque association list
`other`.  A key that is absent or set to Python `None` is `none`. -/
structure Rec where
  checkpoint : Option String
  lore : Option String
  other : List (String × String)
  messages : List Msg
  deriving DecidableEq, Repr

/-- The empty dict `\x7b\x7d` that `update_run_state` installs for an unknown
run id. -/
def emptyRec : Rec := ⟨none, none, [], []⟩

/-- A partial update handed to `update_run_state`.  An outer `none`
means the corresponding key is absent from the `updates` dict. -/
structure Upd where
  checkpoint : Option (Option String)
  lore : Option (Option String)
  other : List (String × String)
  messages : Option (List Msg)
  deriving DecidableEq, Repr

/-- Does some stored message carry the timestamp key `t`?  This is the
membership test against `existing_timestamps` in `update_run_state`. -/
def tsMem (t : Option String) (l : List Msg) : Bool :=
  l.any (fun c => c.ts == t)

/-- Message merging of `update_run_state` (simple_state.py lines 26-44):
the set of existing timestamps is computed once from the stored list and
every new entry whose `ts` is not in that set is appended, in order.
The guard mirrors Python `if new_messages:`. -/
def mergeMessages (cur new : List Msg) : List Msg :=
  if new = [] then cur
  else cur ++ new.filter (fun m => !(tsMem m.ts cur))

/-- Number of stored entries carrying timestamp `t`. -/
def countTs (t : Option String) (l : List Msg) : Nat :=
  l.countP (fun m => m.ts == t)

/-- The in-memory `run_states` map, as an association list. -/
abbrev Store := List (String × Rec)

/-- Lookup in `run_states`. -/
def storeGet : Store → String → Option Rec
  | [], _ => none
  | (k, r) :: t, rid => if k = rid then some r else storeGet t rid

/-- Write-through to `run_states` (replace-or-append). -/
def storeSet : Store → String → Rec → Store
  | [], rid, r => [(rid, r)]
  | (k, v) :: t, rid, r =>
      if k = rid then (k, r) :: t else (k, v) :: storeSet t rid r

/-- Python `dict` key assignment on the opaque field list. -/
def setField : List (String × String) → String → String → List (String × String)
  | [], k, v => [(k, v)]
  | (k₀, v₀) :: t, k, v =>
      if k₀ = k then (k₀, v) :: t else (k₀, v₀) :: setField t k v

/-- Python `dict.update` restricted to the opaque fields: every key in
`upds` overwrites the stored value. -/
def updateFields (cur upds : List (String × String)) : List (String × String) :=
  upds.foldl (fun acc kv => setField acc kv.1 kv.2) cur

/-- Applying `run_states[run_id].update(updates)`: keys present in the
update replace the stored values.  `u.messages` here already holds the
merged list, see `update_run_state`. -/
def applyUpd (cur : Rec) (u : Upd) : Rec :=
  { checkpoint := u.checkpoint.getD cur.checkpoint
    lore := u.lore.getD cur.lore
    other := updateFields cur.other u.other
    messages := u.messages.getD cur.messages }

/-- `update_run_state` (simple_state.py lines 18-46).  An unknown
`run_id` is first bound to the empty dict; when the update carries a
`messages` key it is replaced by the merge of the stored messages with
the new ones; finally `dict.update` applies every present key. -/
def update_run_state (store : Store) (rid : String) (u : Upd) : Store :=
  let cur := (storeGet store rid).getD emptyRec
  let u' := match u.messages with
    | none => u
    | some new => { u with messages := some (mergeMessages cur.messages new) }
  storeSet store rid (applyUpd cur u')

/-- A sequence of `update_run_state` calls against one run. -/
def applyUpds (store : Store) (rid : String) (us : List Upd) : Store :=
  us.foldl (fun s u => update_run_state s rid u) store

/-- The stored message list of a run (empty for an unknown run). -/
def runMessages (store : Store) (rid : String) : List Msg :=
  ((storeGet store rid).getD emptyRec).messages

/-- All message entries ever submitted by a sequence of updates, in
submission order. -/
def submittedMsgs (us : List Upd) : List Msg :=
  (us.filterMap (·.messages)).flatten

/-! ### HTTP endpoints (apps/backend/main.py) -/

/-- A raised `HTTPException`. -/
structure HTTPError where
  status : Nat
  detail : String
  deriving DecidableEq, Repr

/-- Python `str(HTTPException)` as used by the blanket
`except Exception as e: raise HTTPException(500, str(e))` handlers. -/
def httpErrStr (e : HTTPError) : String :=
  toString e.status ++ ": " ++ e.detail

/-- The body of `ResumeRunRequest`: named checkpoint, decision and the
optional `lore` entry of the payload. -/
structure ResumeReq where
  checkpoint : String
  decision : String
  payloadLore : Option String
  deriving DecidableEq, Repr

/-- The JSON body `resume_run` answers with on success. -/
inductive ResumeResp
  | alreadyCompleted (state : Rec)
  | resumed (state : Rec)
  deriving DecidableEq, Repr

/-- Result of a `resume_run` call: the store afterwards, the HTTP
response, and whether a background workflow-continuation task was
spawned (`asyncio.create_task(continue_workflow_after_resume ...)`). -/
structure ResumeOutcome where
  store : Store
  response : Except HTTPError ResumeResp
  taskSpawned : Bool
  deriving Repr

/-- Python truthiness test `if not checkpoint` on an optional string. -/
def falsyStr : Option String → Bool
  | none => true
  | some s => s = ""

/-- The record a `Rec` produces when passed whole as the `updates`
argument of `update_run_state` (every key present). -/
def recToUpd (r : Rec) : Upd :=
  ⟨some r.checkpoint, some r.lore, r.other, some r.messages⟩

/-- The tail of every successful `resume_run` branch: persist the
(possibly edited) record via `update_run_state`, spawn the
continuation task, and answer `status: "resumed"`. -/
def resumeFinish (store : Store) (rid : String) (cur : Rec) : ResumeOutcome :=
  ⟨update_run_state store rid (recToUpd cur), .ok (.resumed cur), true⟩

/-- The `try` body of `resume_run` (main.py lines 394-440).  `ts` is the
fresh uuid used for the finalize completion message. -/
def resume_body (store : Store) (rid : String) (req : ResumeReq) (ts : String) :
    ResumeOutcome :=
  match storeGet store rid with
  | none => ⟨store, .error ⟨404, "Run not found"⟩, false⟩
  | some cur =>
    if falsyStr cur.checkpoint then
      ⟨store, .ok (.alreadyCompleted cur), false⟩
    else if req.checkpoint = "lore_approval" then
      if req.decision = "approve" then
        resumeFinish store rid { cur with checkpoint := none }
      else if req.decision = "edit" then
        resumeFinish store rid
          { cur with
              lore := match req.payloadLore with
                | some l => some l
                | none => cur.lore
              checkpoint := none }
      else
        resumeFinish store rid cur
    else if req.checkpoint = "finalize_mint" then
      if req.decision = "finalize" then
        resumeFinish store rid
          { cur with
              messages := cur.messages ++
                [⟨some ts, "System", "info", "Mint finalized by user approval"⟩]
              checkpoint := none }
      else
        ⟨store, .error ⟨400, "Invalid decision for finalize_mint"⟩, false⟩
    else
      resumeFinish store rid cur

/-- `POST /runs/run_id/resume`.  The blanket `except Exception` handler
also catches the 404/400 `HTTPException`s raised inside the body and
re-raises them as status 500 with `str(e)` as detail. -/
def resume_run (store : Store) (rid : String) (req : ResumeReq) (ts : String) :
    ResumeOutcome :=
  let o := resume_body store rid req ts
  match o.response with
  | .ok _ => o
  | .error e => { o with response := .error ⟨500, httpErrStr e⟩ }

/-! ### Vote tally agent (apps/backend/agents/vote.py) -/

/-- A message attached to an agent partial update.  The fresh
`str(uuid.uuid4())` timestamp the source attaches is elided: agent-level
claims inspect only agent, level and text. -/
structure AMsg where
  agent : String
  level : String
  text : String
  deriving DecidableEq, Repr

/-- A `get_vote_status` reply (services/mcp_client.py `VoteStatus`).
The source field `open` is `isOpen` here (`open` is a Lean keyword).
`endsAt` is the parsed end timestamp; `none` models the
`ValueError`/`TypeError` branch where `ends_at` fails to parse and the
loop keeps polling. -/
structure VoteStatusM where
  isOpen : Bool
  tallies : List Int
  endsAt : Option Int
  deriving DecidableEq, Repr

/-- A `tally_vote` reply (services/mcp_client.py `TallyResult`): winner
CID and the tally dict, as an association list. -/
structure TallyResultM where
  winner_cid : String
  tally : List (String × Int)
  deriving DecidableEq, Repr

/-- The external MCP ledger client, as an oracle: `status n` is the
outcome of the n-th `get_vote_status` call (an `.error` is a raised
exception), `now n` the `datetime.now()` timestamp observed at that
call, and `tallyRes` the outcome of the single `tally_vote` call. -/
structure MCPOracle where
  status : Nat → Except String VoteStatusM
  now : Nat → Int
  tallyRes : Except String TallyResultM

/-- The `vote` dict handed to `tally_vote_agent`; only the `id` key is
read (`vote.get("id")`, `none` for a missing key). -/
structure VoteIn where
  id : Option String
  deriving DecidableEq, Repr

/-- The `art` dict handed to `tally_vote_agent`; only `cids` is read. -/
structure ArtIn where
  cids : List String
  deriving DecidableEq, Repr

/-- The computed vote result (state.py `VoteResult`). -/
structure VoteResultM where
  winner_cid : String
  tally : List (String × Int)
  participation : Int
  deriving DecidableEq, Repr

/-- The updated `vote` dict of the returned partial: the original keys,
a `result`, the `fallback` marker (`true` iff the key was set) and the
optional `error` key of the emergency path. -/
structure UpdatedVote where
  base : VoteIn
  result : VoteResultM
  fallback : Bool
  err : Option String
  deriving DecidableEq, Repr

/-- The partial update returned by `tally_vote_agent`. -/
structure TallyOutcome where
  vote : Option UpdatedVote
  error : Option String
  messages : List AMsg
  deriving DecidableEq, Repr

/-- `max_polls = 30` (vote.py line 183). -/
def maxPolls : Nat := 30

/-- The progress message appended every sixth poll. -/
def progressMsg (pc : Nat) (tallies : List Int) : AMsg :=
  ⟨"Vote", "info",
    "📊 Vote in progress... (" ++ toString pc ++ "/" ++ toString maxPolls ++
      " polls, tallies: " ++ toString tallies ++ ")"⟩

/-- The polling loop of `tally_vote_agent` (vote.py lines 185-251),
returning the final `poll_count` and the accumulated progress messages.
`fuel` only forces termination; every call supplies
`fuel = maxPolls` so the literal guard `pc < maxPolls` is the one that
ends the loop.  Iteration pc+1 queries `status (pc+1)`; on success the
loop breaks when the vote is closed or when `now ≥ endsAt`; on a raised
exception it retries while `poll_count < max_polls` and breaks
otherwise. -/
def pollLoopAux (o : MCPOracle) : Nat → Nat → List AMsg → Nat × List AMsg
  | 0, pc, ms => (pc, ms)
  | fuel + 1, pc, ms =>
    if pc < maxPolls then
      match o.status (pc + 1) with
      | .error _ =>
          if pc + 1 < maxPolls then pollLoopAux o fuel (pc + 1) ms else (pc + 1, ms)
      | .ok st =>
          if st.isOpen = false then (pc + 1, ms)
          else if (match st.endsAt with
                   | some e => decide (e ≤ o.now (pc + 1))
                   | none => false) then (pc + 1, ms)
          else
            pollLoopAux o fuel (pc + 1)
              (if (pc + 1) % 6 = 0 then ms ++ [progressMsg (pc + 1) st.tallies] else ms)
    else (pc, ms)

/-- The value of `poll_count` when the polling loop ends. -/
def pollsPerformed (o : MCPOracle) : Nat :=
  (pollLoopAux o maxPolls 0 []).1

/-- The progress messages accumulated during the polling loop. -/
def pollMsgs (o : MCPOracle) : List AMsg :=
  (pollLoopAux o maxPolls 0 []).2

/-- Completion-type determination after the loop (vote.py lines
253-270): one more `get_vote_status` call (call number pollCount + 1);
on success `vote_ended_naturally := not open` and
`has_votes := tallies and any(count > 0)`; the smart-completion rule
flips `vote_ended_naturally` to true when votes exist and
`poll_count >= 12`; on a raised exception both stay false (timeout is
assumed).  Returns `(vote_ended_naturally, has_votes)`. -/
def resolveAfterLoop (o : MCPOracle) (pollCount : Nat) : Bool × Bool :=
  match o.status (pollCount + 1) with
  | .ok fs =>
      let nat0 := !fs.isOpen
      let hv := fs.tallies.any (fun c => decide (0 < c))
      let nat1 := if !nat0 && hv && decide (12 ≤ pollCount) then true else nat0
      (nat1, hv)
  | .error _ => (false, false)

/-- Resolution (vote.py lines 272-331): on natural completion fetch the
authoritative tally (falling back to index 0 if that call raises); on
timeout pick index 0.  `cids.head` on an empty list is the Python
`IndexError` that escapes to the outer handler.  Returns the
`VoteResult` together with the completion message. -/
def computeVoteResult (o : MCPOracle) (cids : List String) (naturally : Bool) :
    Except String (VoteResultM × AMsg) :=
  if naturally then
    match o.tallyRes with
    | .ok tr =>
        .ok ({ winner_cid := tr.winner_cid
               tally := tr.tally
               participation :=
                 if tr.tally = [] then 0 else (tr.tally.map (·.2)).sum },
             ⟨"Vote", "success",
               "🎉 Vote completed! Winner: " ++ tr.winner_cid.take 16 ++
                 "... (natural completion)"⟩)
    | .error _ =>
        match cids with
        | [] => .error "IndexError: list index out of range"
        | c :: _ =>
            .ok ({ winner_cid := c, tally := [("0", 1)], participation := 1 },
                 ⟨"Vote", "warning",
                   "🎉 Vote completed with fallback! Winner: " ++ c.take 16 ++
                     "... (MCP tally failed)"⟩)
  else
    match cids with
    | [] => .error "IndexError: list index out of range"
    | c :: _ =>
        .ok ({ winner_cid := c, tally := [("0", 1)], participation := 1 },
             ⟨"Vote", "warning",
               "⏱️ Vote timed out! Winner by fallback: " ++ c.take 16 ++
                 "... (picked index 0)"⟩)

/-- The start-of-polling message. -/
def startPollingMsg (vid : String) : AMsg :=
  ⟨"Vote", "info",
    "🕐 Starting vote polling for " ++ vid.take 16 ++ "... (5s intervals)"⟩

/-- `tally_vote_agent` (vote.py lines 121-375).  Early-out error
partials for a missing `vote`/`art` dict or a falsy vote id; otherwise
the polling loop, completion-type determination and resolution run, and
any exception escaping them (only the `IndexError` on an empty cid list
in this embedding) is caught by the outer handler, which produces the
emergency fallback result. -/
def tally_vote_agent (vote : Option VoteIn) (art : Option ArtIn) (o : MCPOracle) :
    TallyOutcome :=
  match vote, art with
  | none, _ =>
      ⟨none, some "Missing vote or art data for tally",
        [⟨"Vote", "error", "Missing data for vote tally"⟩]⟩
  | some _, none =>
      ⟨none, some "Missing vote or art data for tally",
        [⟨"Vote", "error", "Missing data for vote tally"⟩]⟩
  | some v, some a =>
    if falsyStr v.id then
      ⟨none, some "Vote ID missing", [⟨"Vote", "error", "Vote ID missing from state"⟩]⟩
    else
      let vid := v.id.getD ""
      let k := pollsPerformed o
      let naturally := (resolveAfterLoop o k).1
      match computeVoteResult o a.cids naturally with
      | .ok (vr, cmsg) =>
          ⟨some ⟨v, vr, !naturally, none⟩, none,
            startPollingMsg vid :: pollMsgs o ++ [cmsg]⟩
      | .error e =>
          let wc := match a.cids with
            | [] => "unknown"
            | c :: _ => c
          ⟨some ⟨v, ⟨wc, [("0", 1)], 1⟩, true, some e⟩, none,
            [⟨"Vote", "error",
              "❌ Vote tally failed: " ++ e ++ ". Emergency fallback: " ++
                wc.take 16 ++ "..."⟩]⟩

/-! ### Lore agent (apps/backend/agents/lore.py) -/

/-- The `prompt_seed` dict of a lore pack.  `none` models a missing key
(Python `.get` then yields the default and direct indexing raises). -/
structure PromptSeedM where
  style : Option String
  palette : Option String
  motifs : Option (List String)
  negative : Option String
  deriving DecidableEq, Repr

/-- A lore pack (state.py `LorePack`). -/
structure LorePackM where
  summary_md : String
  bullet_facts : List String
  sources : List String
  prompt_seed : PromptSeedM
  deriving DecidableEq, Repr

/-- Helper for `pySplit`: walk the characters, accumulating the current
word (reversed); whitespace ends a word, empty runs produce nothing. -/
def pySplitAux : List Char → List Char → List String
  | [], acc => if acc = [] then [] else [String.mk acc.reverse]
  | c :: rest, acc =>
    if c.isWhitespace then
      if acc = [] then pySplitAux rest []
      else String.mk acc.reverse :: pySplitAux rest []
    else pySplitAux rest (c :: acc)

/-- Python `str.split()` with no separator: split on whitespace runs and
drop empty fragments. -/
def pySplit (s : String) : List String :=
  pySplitAux s.toList []

/-- Python `str.startswith(pre)`. -/
def pyStartsWith (s pre : String) : Bool :=
  pre.toList.isPrefixOf s.toList

/-- `validate_lore_pack` (lore.py lines 13-55), with the raised
`ValueError` as an `.error` carrying the message. -/
def validate_lore_pack (lp : LorePackM) (dl : String) : Except String Unit :=
  if lp.summary_md = "" then
    .error ("summary_md is empty for date: " ++ dl)
  else if 200 < (pySplit lp.summary_md).length then
    .error ("summary_md has " ++ toString (pySplit lp.summary_md).length ++
      " words, must be ≤200 for date: " ++ dl)
  else if lp.bullet_facts.length < 5 then
    .error ("bullet_facts has " ++ toString lp.bullet_facts.length ++
      " items, must be ≥5 for date: " ++ dl)
  else if 10 < lp.bullet_facts.length then
    .error ("bullet_facts has " ++ toString lp.bullet_facts.length ++
      " items, must be ≤10 for date: " ++ dl)
  else if lp.sources.length < 5 then
    .error ("sources has " ++ toString lp.sources.length ++
      " items, must be ≥5 for date: " ++ dl)
  else if !(lp.sources.all fun s => pyStartsWith s "http://" || pyStartsWith s "https://") then
    .error ("sources must be HTTP/HTTPS URLs for date: " ++ dl)
  else if falsyStr lp.prompt_seed.style then
    .error ("prompt_seed.style is empty for date: " ++ dl)
  else if falsyStr lp.prompt_seed.palette then
    .error ("prompt_seed.palette is empty for date: " ++ dl)
  else
    .ok ()

/-- The summary of the hard-coded fallback lore pack (lore.py lines
181-187), after the trailing `.strip()`: the date label is interpolated
twice. -/
def fallbackSummary (dl : String) : String :=
  "# " ++ dl ++
  "\n\nThis historical date represents an important moment in time. While our research systems encountered an issue, "
  ++ dl ++
  " likely marks significant developments in technology, culture, or society. Historical events on this date may have influenced digital innovation, community development, or technological progress."
  ++
  "\n\nThe significance of this date extends to broader themes of human progress, technological advancement, and social change that continue to shape our modern world."

/-- The fallback lore pack built in the `except` branch of `lore_agent`
(lore.py lines 180-212). -/
def fallback_lore_pack (dl : String) : LorePackM :=
  { summary_md := fallbackSummary dl
    bullet_facts :=
      [ "Historical date: " ++ dl
      , "Significant moment in historical timeline"
      , "Potential technological or cultural milestone"
      , "Impact on societal development"
      , "Foundation for future innovations"
      , "Influence on modern digital culture" ]
    sources :=
      [ "https://en.wikipedia.org/wiki/Timeline_of_computing"
      , "https://www.britannica.com/technology/history-of-technology"
      , "https://www.computerhistory.org/timeline/"
      , "https://timeline.web.cern.ch/"
      , "https://www.historyoftechnology.org/" ]
    prompt_seed :=
      { style := some "historical, documentary, classical art style"
        palette := some "warm browns, gold, sepia tones, classic colors"
        motifs := some ["vintage elements", "historical artifacts",
                        "traditional patterns", "timeless designs"]
        negative := some "modern, futuristic, digital" } }

/-- The lore-content review message (lore.py lines 147-162); the direct
dict indexing of `prompt_seed` raises `KeyError` when a key is missing,
which the enclosing `except` turns into the fallback path. -/
def buildLoreContent (lp : LorePackM) (dl : String) : Except String String :=
  match lp.prompt_seed.style, lp.prompt_seed.palette, lp.prompt_seed.motifs with
  | some st, some pa, some ms =>
      .ok ("📜 Generated Lore for " ++ dl ++ "\n\n" ++ lp.summary_md ++
        "\n\n🔑 Key Facts:\n" ++
        String.intercalate "\n" (lp.bullet_facts.map (fun f => "• " ++ f)) ++
        "\n\n🎨 Art Generation Style:\n• Style: " ++ st ++ "\n• Palette: " ++ pa ++
        "  \n• Motifs: " ++ String.intercalate ", " ms)
  | _, _, _ => .error "KeyError: prompt_seed"

/-- The partial update returned by `lore_agent`.  The agent never sets
the `error` key: its failure handling substitutes the fallback pack. -/
structure LoreOutcome where
  lore : Option LorePackM
  checkpoint : Option String
  messages : List AMsg
  deriving DecidableEq, Repr

/-- `lore_agent` (lore.py lines 58-232).  `llm` is the collaborator
oracle (`generate_lore_pack`); any exception of the `try` body — a
collaborator failure, a validation failure of the generated pack, or
the `KeyError` while formatting the content message — lands in the
`except` branch, which builds the fallback pack, re-validates it
against `date_label`, and only then returns.  A `ValueError` raised by
that re-validation escapes `lore_agent` uncaught, hence the `Except`
result. -/
def lore_agent (dl : String) (regenerating : Bool) (editInstructions : Option String)
    (llm : Except String LorePackM) : Except String LoreOutcome :=
  let attempt : Except String (LorePackM × String) :=
    match llm with
    | .error e => .error e
    | .ok lp =>
      match validate_lore_pack lp dl with
      | .error e => .error e
      | .ok _ =>
        match buildLoreContent lp dl with
        | .error e => .error e
        | .ok content => .ok (lp, content)
  match attempt with
  | .ok (lp, content) =>
      let successText :=
        (if regenerating && editInstructions.isSome then
          "Regenerated historical research for " ++ dl ++ " based on your feedback ("
        else
          "Generated historical research for " ++ dl ++ " (") ++
        toString (pySplit lp.summary_md).length ++ " words, " ++
        toString lp.bullet_facts.length ++ " facts, " ++
        toString lp.sources.length ++ " sources)"
      .ok { lore := some lp
            checkpoint := if regenerating then none else some "lore_approval"
            messages := [⟨"Lore", "success", successText⟩, ⟨"Lore", "info", content⟩] }
  | .error e =>
      let fb := fallback_lore_pack dl
      match validate_lore_pack fb dl with
      | .ok _ =>
          .ok { lore := some fb
                checkpoint := none
                messages := [⟨"Lore", "warning",
                  "Research error for " ++ dl ++ ", using fallback content: " ++
                    e.take 100 ++ "..."⟩] }
      | .error v => .error v

/-! ### Artist agent (apps/backend/agents/artist.py) -/

/-- The artist collaborators, as an oracle for the single generated
image (the loop runs over `prompts[:1]`): the OpenAI image generation
(raises on failure), the `exists()` check on the written file, the
thumbnail creation and the two IPFS pinning helpers (each returns
`None` on failure). -/
structure ArtistOracle where
  generate : Except String String
  fileExists : Bool
  thumb : Option Unit
  pinImage : Option String
  pinThumb : Option String

/-- The body of the per-image `try` in `artist_agent` (artist.py lines
650-672): each failed step raises; the raised message is what the
warning message truncates. -/
def artist_inner (o : ArtistOracle) : Except String (String × String) :=
  match o.generate with
  | .error e => .error e
  | .ok fp =>
    if !o.fileExists then .error ("Image file not created: " ++ fp)
    else match o.thumb with
      | none => .error "Thumbnail creation failed"
      | some _ =>
        match o.pinImage with
        | none => .error "Image IPFS pinning failed"
        | some icid =>
          match o.pinThumb with
          | none => .error "Thumbnail IPFS pinning failed"
          | some tcid => .ok (icid, tcid)

/-- `create_image_prompts` (artist.py lines 526-551). -/
def create_image_prompts (ps : PromptSeedM) (dl : String) : List String :=
  let style := ps.style.getD "historical, documentary"
  let palette := ps.palette.getD "warm, classic colors"
  let motifs := ps.motifs.getD
    ["vintage elements", "historical artifacts", "timeless designs",
     "classical composition"]
  let negative := ps.negative.getD "modern, futuristic"
  let base := "Historical artwork depicting " ++ dl ++ ", " ++ style ++ ", " ++ palette
  let variationWords := ["featuring", "with", "incorporating", "showcasing"]
  let avoidWords := ["avoid", "not", "without", "no"]
  let prompts := motifs.enum.map fun p =>
    base ++ ", " ++ variationWords.getD (p.1 % 4) "" ++ " " ++ p.2 ++ ", " ++
      avoidWords.getD (p.1 % 4) "" ++ " " ++ negative
  if prompts = [] then [base ++ ", featuring historical elements, avoid " ++ negative]
  else prompts

/-- An art set (state.py `ArtSet`, reject_reasons unused here). -/
structure ArtSetM where
  cids : List String
  thumbnails : List String
  style_notes : List String
  deriving DecidableEq, Repr

/-- The partial update returned by `artist_agent`. -/
structure ArtistOutcome where
  art : Option ArtSetM
  error : Option String
  messages : List AMsg
  deriving DecidableEq, Repr

/-- `artist_agent` (artist.py lines 554-816).  The per-image `try`
catches every collaborator failure and substitutes placeholder CIDs
plus a warning message; the outer `except` (lines 764-809, the
four-placeholder fallback) is unreachable in this embedding because
every fallible call of the `try` body sits inside the per-image
handler, so `artist_agent` is total.  The file-size figure interpolated
into the completion message is elided. -/
def artist_agent (lore : Option LorePackM) (dl : String) (o : ArtistOracle) :
    ArtistOutcome :=
  match lore with
  | none =>
      ⟨none, some "No lore data available for art generation",
        [⟨"Artist", "error", "Missing lore data"⟩]⟩
  | some lp =>
    let ps := lp.prompt_seed
    let n := (create_image_prompts ps dl).length
    let startM : AMsg :=
      ⟨"Artist", "info",
        "🎨 Artist agent activated - preparing to generate artworks for " ++ dl⟩
    let progM : AMsg :=
      ⟨"Artist", "info",
        "Generating image 1/" ++ toString n ++ " using OpenAI gpt-image-1..."⟩
    match artist_inner o with
    | .ok (icid, tcid) =>
        let motifs := ps.motifs.getD ["historical elements"]
        let motif := motifs.getD 0 "variation 1"
        let note := "Historical artwork featuring " ++ motif ++ " in " ++
          ps.style.getD "classic" ++ " style"
        ⟨some ⟨["ipfs://" ++ icid], ["ipfs://" ++ tcid], [note]⟩, none,
          [startM, progM,
           ⟨"Artist", "success",
             "Image 1/" ++ toString n ++ " generated and pinned to IPFS (ipfs://" ++
               icid ++ ")"⟩,
           ⟨"Artist", "success",
             "🎨 All images complete! Generated 1/" ++ toString n ++
               " artworks ready for voting"⟩]⟩
    | .error e =>
        ⟨some ⟨["ipfs://placeholder_art_1"], ["ipfs://placeholder_thumb_1"],
               ["Image generation or IPFS pinning failed for variation 1"]⟩, none,
          [startM, progM,
           ⟨"Artist", "warning",
             "Image 1/" ++ toString n ++ " generation/pinning failed: " ++ e.take 50⟩,
           ⟨"Artist", "success",
             "🎨 All images complete! Generated 0/" ++ toString n ++
               " artworks ready for voting"⟩]⟩

/-- The `try` body of `get_run` (main.py lines 185-191). -/
def get_run_body (store : Store) (rid : String) : Except HTTPError Rec :=
  match storeGet store rid with
  | none => .error ⟨404, "Run not found"⟩
  | some s => .ok s

/-- `GET /runs/run_id`.  As in `resume_run`, the blanket handler turns
the 404 raised in the body into a 500. -/
def get_run (store : Store) (rid : String) : Except HTTPError Rec :=
  match get_run_body store rid with
  | .ok s => .ok s
  | .error e => .error ⟨500, httpErrStr e⟩

/-! ### Concrete collaborator behaviours used as test inputs -/

/-- A ledger client whose every call raises. -/
def oErr : MCPOracle :=
  { status := fun _ => .error "connection refused"
    now := fun _ => 0
    tallyRes := .error "connection refused" }

/-- A ledger client reporting a vote that stays open forever with a
nonzero count and a far-future end time. -/
def c4o : MCPOracle :=
  { status := fun _ => .ok ⟨true, [5], some 1000000⟩
    now := fun _ => 0
    tallyRes := .ok ⟨"QmWinner", [("1", 5)]⟩ }

/-- A ledger client reporting a vote that stays open with all-zero
counts and an already-expired end time. -/
def oZero : MCPOracle :=
  { status := fun _ => .ok ⟨true, [0, 0], some 5⟩
    now := fun _ => 10
    tallyRes := .error "unused" }

/-- A ledger client reporting a vote already closed on the first poll,
with a successful authoritative tally. -/
def oClosed : MCPOracle :=
  { status := fun _ => .ok ⟨false, [], none⟩
    now := fun _ => 0
    tallyRes := .ok ⟨"QmWinner", [("0", 3), ("1", 2)]⟩ }

/-- A 68-word date label (the API accepts any string as `date_label`). -/
def dl68 : String := String.intercalate " " (List.replicate 68 "a")

/-- A run record paused at the `finalize_mint` checkpoint. -/
def c7rec : Rec := ⟨some "finalize_mint", none, [("run_id", "run-7")], []⟩

/-- A store holding only `c7rec`. -/
def c7store : Store := [("run-7", c7rec)]

/-- A message with unique id `a`. -/
def c1m1 : Msg := ⟨some "a", "Lore", "info", "m1"⟩

/-- A message with unique id `b`. -/
def c1m2 : Msg := ⟨some "b", "Lore", "info", "m2"⟩

/-- Two merge calls: the second resubmits `c1m1` alongside the new
`c1m2`. -/
def c1us : List Upd :=
  [⟨none, none, [], some [c1m1]⟩, ⟨none, none, [], some [c1m1, c1m2]⟩]

/-- A completed run record (null checkpoint). -/
def c5rec : Rec := ⟨none, none, [("run_id", "r5")], []⟩

/-- A store holding only `c5rec`. -/
def c5store : Store := [("r5", c5rec)]

/-- A run record paused at the `lore_approval` checkpoint. -/
def c9rec : Rec := ⟨some "lore_approval", none, [("run_id", "r9")], []⟩

/-- A store holding only `c9rec`. -/
def c9store : Store := [("r9", c9rec)]

/-! ## Theorems

First the generic lemmas about the store and the message merge, then
one theorem (plus counterexample / witness where required) per claim. -/

/-- Reading back the record just written. -/
theorem storeGet_storeSet_self (s : Store) (rid : String) (r : Rec) :
    storeGet (storeSet s rid r) rid = some r := by
  induction s with
  | nil => simp [storeSet, storeGet]
  | cons kv t ih =>
      obtain ⟨k, v⟩ := kv
      by_cases h : k = rid
      · simp [storeSet, storeGet, h]
      · simp [storeSet, storeGet, h, ih]

/-- Merging against the empty stored list keeps every new entry. -/
theorem mergeMessages_nil_left (b : List Msg) : mergeMessages [] b = b := by
  unfold mergeMessages
  by_cases h : b = []
  · simp [h]
  · simp [h, tsMem]

/-- One `update_run_state` call changes the stored messages exactly by
the merge (or not at all when the update has no `messages` key). -/
theorem runMessages_update (s : Store) (rid : String) (u : Upd) :
    runMessages (update_run_state s rid u) rid =
      match u.messages with
      | none => runMessages s rid
      | some b => mergeMessages (runMessages s rid) b := by
  unfold update_run_state runMessages
  cases hm : u.messages with
  | none => simp [storeGet_storeSet_self, applyUpd, hm]
  | some b => simp [storeGet_storeSet_self, applyUpd, hm]

/-- A sequence of updates folds the merge over the submitted batches. -/
theorem runMessages_applyUpds (rid : String) (us : List Upd) (s : Store) :
    runMessages (applyUpds s rid us) rid =
      (us.filterMap (·.messages)).foldl mergeMessages (runMessages s rid) := by
  induction us generalizing s with
  | nil => rfl
  | cons u t ih =>
      show runMessages (applyUpds (update_run_state s rid u) rid t) rid = _
      rw [ih, runMessages_update]
      cases hm : u.messages with
      | none => simp [List.filterMap_cons, hm]
      | some b => simp [List.filterMap_cons, hm]

/-- Unfolding `tsMem`. -/
theorem tsMem_iff (t : Option String) (l : List Msg) :
    tsMem t l = true ↔ ∃ m ∈ l, m.ts = t := by
  simp [tsMem, List.any_eq_true]

/-- Unfolding `tsMem = false`. -/
theorem tsMem_false_iff (t : Option String) (l : List Msg) :
    tsMem t l = false ↔ ∀ m ∈ l, m.ts ≠ t := by
  simp [tsMem, List.any_eq_false]

/-- A timestamp is absent iff its count is zero. -/
theorem countTs_eq_zero (t : Option String) (l : List Msg) :
    countTs t l = 0 ↔ tsMem t l = false := by
  simp [countTs, List.countP_eq_zero, tsMem, List.any_eq_false]

/-- `countTs` distributes over append. -/
theorem countTs_append (t : Option String) (a b : List Msg) :
    countTs t (a ++ b) = countTs t a + countTs t b := by
  simp [countTs, List.countP_append]

/-- Within a batch of pairwise-distinct timestamps every timestamp
occurs at most once. -/
theorem countTs_of_pairwise (t : Option String) (b : List Msg)
    (hb : b.Pairwise fun x y => x.ts ≠ y.ts) :
    countTs t b = if tsMem t b then 1 else 0 := by
  induction b with
  | nil => simp [countTs, tsMem]
  | cons m r ih =>
      rw [List.pairwise_cons] at hb
      obtain ⟨hm, hr⟩ := hb
      by_cases h : m.ts = t
      · have hz : countTs t r = 0 := by
          rw [countTs_eq_zero, tsMem_false_iff]
          intro x hx
          have := hm x hx
          rw [h] at this
          exact fun hxt => this hxt.symm
        have hcount : countTs t (m :: r) = countTs t r + 1 := by
          simp [countTs, List.countP_cons, h]
        have hmem : tsMem t (m :: r) = true := by
          simp [tsMem, List.any_cons, h]
        rw [hcount, hz, hmem]
        simp
      · have hcount : countTs t (m :: r) = countTs t r := by
          simp [countTs, List.countP_cons, h]
        rw [hcount, ih hr]
        have hmem : tsMem t (m :: r) = tsMem t r := by
          simp [tsMem, List.any_cons, h]
        rw [hmem]

/-- `tsMem` distributes over append. -/
theorem tsMem_append (t : Option String) (a b : List Msg) :
    tsMem t (a ++ b) = (tsMem t a || tsMem t b) := by
  simp [tsMem, List.any_append]

/-- The merge step preserves the exactly-once invariant, for a batch
whose own timestamps are pairwise distinct. -/
theorem countTs_mergeMessages (cur b acc : List Msg)
    (hb : b.Pairwise fun x y => x.ts ≠ y.ts)
    (hinv : ∀ t, countTs t cur = if tsMem t acc then 1 else 0) :
    ∀ t, countTs t (mergeMessages cur b) = if tsMem t (acc ++ b) then 1 else 0 := by
  intro t
  unfold mergeMessages
  by_cases hbe : b = []
  · subst hbe
    simpa using hinv t
  · rw [if_neg hbe, countTs_append, tsMem_append]
    by_cases hacc : tsMem t acc
    · have hcur1 : countTs t cur = 1 := by rw [hinv t, if_pos hacc]
      have hcurmem : tsMem t cur = true := by
        by_contra hc
        have : countTs t cur = 0 := (countTs_eq_zero t cur).mpr (by simpa using hc)
        omega
      have hfil : countTs t (b.filter fun m => !(tsMem m.ts cur)) = 0 := by
        rw [countTs_eq_zero, tsMem_false_iff]
        intro m hmem hts
        have := (List.mem_filter.mp hmem).2
        rw [hts, hcurmem] at this
        simp at this
      rw [hcur1, hfil, hacc]
      simp
    · have hcur0 : countTs t cur = 0 := by
        rw [hinv t, if_neg hacc]
      have hcurmem : tsMem t cur = false := (countTs_eq_zero t cur).mp hcur0
      have hfil : countTs t (b.filter fun m => !(tsMem m.ts cur)) = countTs t b := by
        unfold countTs
        rw [List.countP_filter]
        apply List.countP_congr
        intro m _
        by_cases hts : m.ts = t
        · rw [hts, hcurmem]
          simp
        · simp [hts]
      rw [hcur0, hfil, countTs_of_pairwise t b hb]
      simp [hacc]

/-- Folding the merge over pairwise-distinct batches yields the
exactly-once invariant against the flattened submission stream. -/
theorem countTs_foldMerge (batches : List (List Msg)) (cur acc : List Msg)
    (hb : ∀ b ∈ batches, b.Pairwise fun x y => x.ts ≠ y.ts)
    (hinv : ∀ t, countTs t cur = if tsMem t acc then 1 else 0) :
    ∀ t, countTs t (batches.foldl mergeMessages cur) =
      if tsMem t (acc ++ batches.flatten) then 1 else 0 := by
  induction batches generalizing cur acc with
  | nil => simpa using hinv
  | cons b tl ih =>
      intro t
      rw [List.foldl_cons]
      have step := countTs_mergeMessages cur b acc (hb b (by simp)) hinv
      have := ih (mergeMessages cur b) (acc ++ b)
        (fun x hx => hb x (by simp [hx])) step t
      rw [this]
      simp [List.append_assoc]

/-- The merge result is a sublist of the submission stream. -/
theorem mergeMessages_sublist (cur acc b : List Msg) (h : List.Sublist cur acc) :
    List.Sublist (mergeMessages cur b) (acc ++ b) := by
  unfold mergeMessages
  by_cases hbe : b = []
  · subst hbe
    simpa using h.trans (by simp)
  · rw [if_neg hbe]
    exact h.append (List.filter_sublist b)

/-- Folding the merge keeps the result a sublist of the stream. -/
theorem foldMerge_sublist (batches : List (List Msg)) (cur acc : List Msg)
    (h : List.Sublist cur acc) :
    List.Sublist (batches.foldl mergeMessages cur) (acc ++ batches.flatten) := by
  induction batches generalizing cur acc with
  | nil => simpa using h
  | cons b tl ih =>
      rw [List.foldl_cons]
      have := ih (mergeMessages cur b) (acc ++ b) (mergeMessages_sublist cur acc b h)
      simpa [List.append_assoc] using this

/-- The merge only ever appends to the stored list. -/
theorem mergeMessages_append_only (cur b : List Msg) :
    ∃ tail, mergeMessages cur b = cur ++ tail := by
  unfold mergeMessages
  by_cases hbe : b = []
  · exact ⟨[], by simp [hbe]⟩
  · exact ⟨_, by rw [if_neg hbe]⟩

/-- C1 counterexample: one `update_run_state` call whose batch contains
the same unique id (`ts = "t1"`) twice appends both entries, because
the `existing_timestamps` set is computed once from the stored list and
never extended during the loop — the final sequence holds two entries
for one distinct unique id, contradicting the claimed exactly-once
property. -/
theorem update_run_state_duplicate_batch_counterexample :
    countTs (some "t1")
      (runMessages
        (applyUpds [] "run-1"
          [⟨none, none, [],
            some [⟨some "t1", "Vote", "info", "x"⟩, ⟨some "t1", "Vote", "info", "y"⟩]⟩])
        "run-1") = 2 := by decide

/-- C1 (amended): provided no single merge call submits two entries
with the same unique id, every sequence of `update_run_state` calls on
one run yields a final `messages` list holding exactly one entry per
distinct unique id ever submitted (no loss, no duplication), as an
order-preserving subsequence of the submission stream; and any single
merge only ever appends to the stored list (existing entries are never
touched). -/
theorem update_run_state_messages_exactly_once (rid : String) (us : List Upd)
    (h : ∀ b ∈ us.filterMap (·.messages), b.Pairwise fun x y => x.ts ≠ y.ts) :
    (∀ t, countTs t (runMessages (applyUpds [] rid us) rid) =
        if tsMem t (submittedMsgs us) then 1 else 0)
    ∧ List.Sublist (runMessages (applyUpds [] rid us) rid) (submittedMsgs us)
    ∧ (∀ s u, ∃ tail, runMessages (update_run_state s rid u) rid =
        runMessages s rid ++ tail) := by
  have hbase : runMessages ([] : Store) rid = [] := rfl
  refine ⟨?_, ?_, ?_⟩
  · intro t
    rw [runMessages_applyUpds, hbase]
    have := countTs_foldMerge (us.filterMap (·.messages)) [] [] h
      (fun t => by simp [countTs, tsMem]) t
    simpa [submittedMsgs] using this
  · rw [runMessages_applyUpds, hbase]
    have := foldMerge_sublist (us.filterMap (·.messages)) [] [] (List.Sublist.refl [])
    simpa [submittedMsgs] using this
  · intro s u
    rw [runMessages_update]
    cases hm : u.messages with
    | none => exact ⟨[], by simp⟩
    | some b => exact mergeMessages_append_only _ b

/-- C1 witness: the amended theorem applied to the two concrete merge
calls of `c1us` (the second resubmits an already-stored entry). -/
theorem update_run_state_messages_exactly_once_witness :
    (∀ b ∈ c1us.filterMap (·.messages), b.Pairwise fun x y => x.ts ≠ y.ts)
    ∧ ((∀ t, countTs t (runMessages (applyUpds [] "run-1" c1us) "run-1") =
          if tsMem t (submittedMsgs c1us) then 1 else 0)
       ∧ List.Sublist (runMessages (applyUpds [] "run-1" c1us) "run-1")
           (submittedMsgs c1us)
       ∧ (∀ s u, ∃ tail, runMessages (update_run_state s "run-1" u) "run-1" =
            runMessages s "run-1" ++ tail)) := by
  have hp : ∀ b ∈ c1us.filterMap (·.messages), b.Pairwise fun x y => x.ts ≠ y.ts := by
    decide
  exact ⟨hp, update_run_state_messages_exactly_once "run-1" c1us hp⟩

/-- C6 counterexample: a merge against an empty store does not fail
with any not-found error; it silently creates the record and applies
the update — refuting the claim that only `create` establishes a
record. -/
theorem update_run_state_unknown_creates_counterexample :
    storeGet
      (update_run_state [] "r1"
        ⟨some (some "cp"), none, [("date_label", "x")],
          some [⟨some "t", "Lore", "info", "m"⟩]⟩) "r1"
      = some ⟨some "cp", none, [("date_label", "x")],
          [⟨some "t", "Lore", "info", "m"⟩]⟩ := by decide

/-- C6 (amended): `update_run_state` on a run id with no existing
record never raises; it first installs the empty record and then
applies the partial update to it, so a merge does bring a record into
existence. -/
theorem update_run_state_unknown_creates (store : Store) (rid : String) (u : Upd)
    (h : storeGet store rid = none) :
    storeGet (update_run_state store rid u) rid =
      some { checkpoint := u.checkpoint.getD none
             lore := u.lore.getD none
             other := updateFields [] u.other
             messages := u.messages.getD [] } := by
  unfold update_run_state
  cases hm : u.messages with
  | none => simp [h, hm, storeGet_storeSet_self, applyUpd, emptyRec]
  | some b =>
      simp [h, hm, storeGet_storeSet_self, applyUpd, emptyRec, mergeMessages_nil_left]

/-- C6 witness: the amended theorem at the empty store. -/
theorem update_run_state_unknown_creates_witness :
    storeGet ([] : Store) "r1" = none
    ∧ storeGet
        (update_run_state [] "r1" ⟨none, none, [("date_label", "x")], none⟩) "r1"
      = some { checkpoint := (none : Option (Option String)).getD none
               lore := (none : Option (Option String)).getD none
               other := updateFields [] [("date_label", "x")]
               messages := (none : Option (List Msg)).getD [] } :=
  ⟨rfl, update_run_state_unknown_creates [] "r1"
    ⟨none, none, [("date_label", "x")], none⟩ rfl⟩

/-- C5: `resume_run` on a run whose checkpoint is null answers
`already_completed` with the current record, leaves the store
untouched, and spawns no workflow-continuation task. -/
theorem resume_null_checkpoint_noop (store : Store) (rid : String) (r : Rec)
    (req : ResumeReq) (ts : String)
    (h1 : storeGet store rid = some r) (h2 : r.checkpoint = none) :
    resume_run store rid req ts = ⟨store, .ok (.alreadyCompleted r), false⟩ := by
  simp [resume_run, resume_body, h1, h2, falsyStr]

/-- C5 witness: the theorem at a completed concrete run. -/
theorem resume_null_checkpoint_noop_witness :
    storeGet c5store "r5" = some c5rec
    ∧ c5rec.checkpoint = none
    ∧ resume_run c5store "r5" ⟨"lore_approval", "approve", none⟩ "u5" =
        ⟨c5store, .ok (.alreadyCompleted c5rec), false⟩ :=
  ⟨rfl, rfl,
    resume_null_checkpoint_noop c5store "r5" c5rec
      ⟨"lore_approval", "approve", none⟩ "u5" rfl rfl⟩

/-- C9: a resume request naming the `lore_approval` checkpoint with a
decision other than `approve`/`edit` falls through every branch: no
error is reported, the record (checkpoint included) is persisted
unchanged, the response says `resumed`, and a background continuation
task is still spawned. -/
theorem resume_unknown_decision_still_resumes (store : Store) (rid : String)
    (r : Rec) (c : String) (req : ResumeReq) (ts : String)
    (h1 : storeGet store rid = some r) (h2 : r.checkpoint = some c) (h3 : c ≠ "")
    (h4 : req.checkpoint = "lore_approval")
    (h5 : req.decision ≠ "approve") (h6 : req.decision ≠ "edit") :
    (resume_run store rid req ts).response = .ok (.resumed r)
    ∧ (resume_run store rid req ts).taskSpawned = true
    ∧ (storeGet (resume_run store rid req ts).store rid).map (·.checkpoint) =
        some (some c) := by
  have hbody : resume_body store rid req ts = resumeFinish store rid r := by
    simp [resume_body, h1, h2, h3, h4, h5, h6, falsyStr]
  have hrun : resume_run store rid req ts = resumeFinish store rid r := by
    simp [resume_run, hbody, resumeFinish]
  rw [hrun]
  refine ⟨rfl, rfl, ?_⟩
  simp [resumeFinish, update_run_state, h1, storeGet_storeSet_self, applyUpd,
    recToUpd, h2]

/-- C9 witness: the theorem at a concrete paused run with decision
`reject`. -/
theorem resume_unknown_decision_still_resumes_witness :
    (storeGet c9store "r9" = some c9rec
      ∧ c9rec.checkpoint = some "lore_approval"
      ∧ "lore_approval" ≠ ""
      ∧ (⟨"lore_approval", "reject", none⟩ : ResumeReq).checkpoint = "lore_approval"
      ∧ (⟨"lore_approval", "reject", none⟩ : ResumeReq).decision ≠ "approve"
      ∧ (⟨"lore_approval", "reject", none⟩ : ResumeReq).decision ≠ "edit")
    ∧ ((resume_run c9store "r9" ⟨"lore_approval", "reject", none⟩ "u9").response =
        .ok (.resumed c9rec)
      ∧ (resume_run c9store "r9" ⟨"lore_approval", "reject", none⟩ "u9").taskSpawned
          = true
      ∧ (storeGet (resume_run c9store "r9"
            ⟨"lore_approval", "reject", none⟩ "u9").store "r9").map (·.checkpoint) =
          some (some "lore_approval")) := by
  refine ⟨⟨rfl, rfl, by decide, rfl, by decide, by decide⟩, ?_⟩
  exact resume_unknown_decision_still_resumes c9store "r9" c9rec "lore_approval"
    ⟨"lore_approval", "reject", none⟩ "u9" rfl rfl (by decide) rfl (by decide)
    (by decide)

/-- C7: the claimed 404/400 statuses never reach the client.  The
endpoints do raise `HTTPException(404)` for an unknown run and
`HTTPException(400)` for an invalid finalize decision, but their own
blanket `except Exception` handlers catch those and re-raise status
500; and a resume whose named checkpoint does not match the record
checkpoint (here: `lore_approval` against a record paused at
`finalize_mint`) is not rejected with 400 at all — it is accepted,
answered `resumed`, and even clears the checkpoint. -/
theorem endpoint_status_codes_swallowed :
    get_run [] "missing-run" = .error ⟨500, "404: Run not found"⟩
    ∧ (resume_run [] "missing-run" ⟨"lore_approval", "approve", none⟩ "u1").response =
        .error ⟨500, "404: Run not found"⟩
    ∧ (resume_run c7store "run-7" ⟨"lore_approval", "approve", none⟩ "u2").response =
        .ok (.resumed ⟨none, none, [("run_id", "run-7")], []⟩)
    ∧ (resume_run c7store "run-7" ⟨"finalize_mint", "reject", none⟩ "u3").response =
        .error ⟨500, "400: Invalid decision for finalize_mint"⟩ :=
  ⟨rfl, rfl, rfl, rfl⟩

/-- Python truthiness of a nonempty optional string is false. -/
theorem falsyStr_some_false (s : String) (h : s ≠ "") : falsyStr (some s) = false := by
  show decide (s = "") = false
  exact decide_eq_false h

/-- The polling loop performs at most `fuel` further iterations. -/
theorem pollLoopAux_fst_le (o : MCPOracle) (fuel : Nat) :
    ∀ pc ms, (pollLoopAux o fuel pc ms).1 ≤ pc + fuel := by
  induction fuel with
  | zero => intro pc ms; simp [pollLoopAux]
  | succ f ih =>
      intro pc ms
      unfold pollLoopAux
      split
      · split
        · split
          · exact le_trans (ih _ _) (by omega)
          · show pc + 1 ≤ pc + (f + 1)
            omega
        · split
          · show pc + 1 ≤ pc + (f + 1)
            omega
          · split
            · show pc + 1 ≤ pc + (f + 1)
              omega
            · exact le_trans (ih _ _) (by omega)
      · omega

/-- C2: for every behaviour of the external vote-status source —
including one that always reports the vote open with all-zero counts
and one whose every query raises — the tally stage performs at most
`max_polls = 30` polling iterations, and its returned partial update
always carries a resolved vote result. -/
theorem tally_vote_bounded_and_resolved (o : MCPOracle) (v : VoteIn) (a : ArtIn)
    (vid : String) (h1 : v.id = some vid) (h2 : vid ≠ "") :
    pollsPerformed o ≤ maxPolls
    ∧ ((tally_vote_agent (some v) (some a) o).vote).isSome = true := by
  have hf : falsyStr v.id = false := by rw [h1]; exact falsyStr_some_false vid h2
  constructor
  · have := pollLoopAux_fst_le o maxPolls 0 []
    simpa [pollsPerformed] using this
  · simp only [tally_vote_agent, hf, Bool.false_eq_true, if_false]
    split <;> simp

/-- C2 witness: the theorem at a status source whose every query
raises. -/
theorem tally_vote_bounded_and_resolved_witness :
    ((⟨some "vote-1"⟩ : VoteIn).id = some "vote-1" ∧ "vote-1" ≠ "")
    ∧ (pollsPerformed oErr ≤ maxPolls
       ∧ ((tally_vote_agent (some ⟨some "vote-1"⟩)
            (some ⟨["cid0", "cid1"]⟩) oErr).vote).isSome = true) := by
  refine ⟨⟨rfl, by decide⟩, ?_⟩
  exact tally_vote_bounded_and_resolved oErr ⟨some "vote-1"⟩ ⟨["cid0", "cid1"]⟩
    "vote-1" rfl (by decide)

/-- C3: when every status query succeeds, reports the vote open and
all-zero counts, the stage resolves through the timeout branch: winner
is the first art CID (option index 0), tally maps option `0` to 1,
participation is 1, the `fallback` marker (the code-level rendering of
`resolved_by = timeout`) is set, and a warning timeout message is
emitted. -/
theorem tally_vote_timeout_resolution (o : MCPOracle) (v : VoteIn) (a : ArtIn)
    (vid c : String) (rest : List String)
    (h1 : v.id = some vid) (h2 : vid ≠ "") (h3 : a.cids = c :: rest)
    (h4 : ∀ i, ∃ st, o.status i = .ok st ∧ st.isOpen = true ∧ ∀ x ∈ st.tallies, x = 0) :
    (tally_vote_agent (some v) (some a) o).vote =
      some ⟨v, ⟨c, [("0", 1)], 1⟩, true, none⟩
    ∧ (⟨"Vote", "warning",
        "⏱️ Vote timed out! Winner by fallback: " ++ c.take 16 ++
          "... (picked index 0)"⟩ : AMsg) ∈
        (tally_vote_agent (some v) (some a) o).messages := by
  obtain ⟨fs, hs, hopen, hz⟩ := h4 (pollsPerformed o + 1)
  have hnat : (resolveAfterLoop o (pollsPerformed o)).1 = false := by
    unfold resolveAfterLoop
    rw [hs]
    have hv : fs.tallies.any (fun x => decide (0 < x)) = false := by
      rw [List.any_eq_false]
      intro x hx
      simp [hz x hx]
    simp [hopen, hv]
  have hres : computeVoteResult o a.cids false =
      .ok (⟨c, [("0", 1)], 1⟩,
        ⟨"Vote", "warning",
          "⏱️ Vote timed out! Winner by fallback: " ++ c.take 16 ++
            "... (picked index 0)"⟩) := by
    unfold computeVoteResult
    rw [h3]
    rfl
  have hf : falsyStr v.id = false := by rw [h1]; exact falsyStr_some_false vid h2
  have hmain : tally_vote_agent (some v) (some a) o =
      ⟨some ⟨v, ⟨c, [("0", 1)], 1⟩, true, none⟩, none,
        startPollingMsg vid :: pollMsgs o ++
          [⟨"Vote", "warning",
            "⏱️ Vote timed out! Winner by fallback: " ++ c.take 16 ++
              "... (picked index 0)"⟩]⟩ := by
    simp [tally_vote_agent, h1, falsyStr_some_false vid h2, hnat, hres]
  rw [hmain]
  exact ⟨rfl, by simp⟩

/-- C3 witness: the theorem at an always-open all-zero status source
whose end time has already passed. -/
theorem tally_vote_timeout_resolution_witness :
    ((⟨some "vote-1"⟩ : VoteIn).id = some "vote-1" ∧ "vote-1" ≠ ""
     ∧ (⟨["cid0", "cid1"]⟩ : ArtIn).cids = "cid0" :: ["cid1"]
     ∧ ∀ i, ∃ st, oZero.status i = .ok st ∧ st.isOpen = true ∧ ∀ x ∈ st.tallies, x = 0)
    ∧ ((tally_vote_agent (some ⟨some "vote-1"⟩) (some ⟨["cid0", "cid1"]⟩) oZero).vote =
        some ⟨⟨some "vote-1"⟩, ⟨"cid0", [("0", 1)], 1⟩, true, none⟩
      ∧ (⟨"Vote", "warning",
          "⏱️ Vote timed out! Winner by fallback: " ++ "cid0".take 16 ++
            "... (picked index 0)"⟩ : AMsg) ∈
          (tally_vote_agent (some ⟨some "vote-1"⟩)
            (some ⟨["cid0", "cid1"]⟩) oZero).messages) := by
  have h4 : ∀ i, ∃ st, oZero.status i = .ok st ∧ st.isOpen = true ∧
      ∀ x ∈ st.tallies, x = 0 :=
    fun _ => ⟨⟨true, [0, 0], some 5⟩, rfl, rfl, by decide⟩
  refine ⟨⟨rfl, by decide, rfl, h4⟩, ?_⟩
  exact tally_vote_timeout_resolution oZero ⟨some "vote-1"⟩ ⟨["cid0", "cid1"]⟩
    "vote-1" "cid0" ["cid1"] rfl (by decide) rfl h4

/-- C4 counterexample: with a status source that always reports the
vote open, a nonzero count and a far-future end time, the smart
completion conditions (open, at least half of `max_polls = 30`
iterations accumulated, nonzero count) hold from iteration 15 on, yet
the poller does not break early: it performs all 30 polls.  The
smart-completion test lives after the loop (vote.py line 265) and uses
the threshold 12, not half of `max_polls`. -/
theorem smart_completion_no_early_break_counterexample :
    c4o.status 15 = .ok ⟨true, [5], some 1000000⟩
    ∧ maxPolls / 2 = 15
    ∧ pollsPerformed c4o = maxPolls
    ∧ ¬ pollsPerformed c4o ≤ maxPolls / 2 := by
  exact ⟨rfl, by decide, by decide, by decide⟩

/-- C4 (amended): after the polling loop has ended, if the final status
still reports the vote open, at least one option has a nonzero count,
and at least 12 of the 30 polls were performed (the code threshold —
40 percent of `max_polls`, not half), the resolution is reclassified as
natural completion: the winner and tally come from the authoritative
`tally_vote` call and no fallback marker is set. -/
theorem smart_completion_post_loop (o : MCPOracle) (v : VoteIn) (a : ArtIn)
    (vid : String) (fs : VoteStatusM) (tr : TallyResultM)
    (h1 : v.id = some vid) (h2 : vid ≠ "")
    (h3 : o.status (pollsPerformed o + 1) = .ok fs)
    (h4 : fs.isOpen = true)
    (h5 : fs.tallies.any (fun x => decide (0 < x)) = true)
    (h6 : 12 ≤ pollsPerformed o)
    (h7 : o.tallyRes = .ok tr) :
    ∃ uv, (tally_vote_agent (some v) (some a) o).vote = some uv
      ∧ uv.result.winner_cid = tr.winner_cid
      ∧ uv.result.tally = tr.tally
      ∧ uv.fallback = false := by
  have hnat : (resolveAfterLoop o (pollsPerformed o)).1 = true := by
    unfold resolveAfterLoop
    rw [h3]
    simp [h4, h5, h6]
  have hres : computeVoteResult o a.cids true =
      .ok ({ winner_cid := tr.winner_cid
             tally := tr.tally
             participation :=
               if tr.tally = [] then 0 else (tr.tally.map (·.2)).sum },
           ⟨"Vote", "success",
             "🎉 Vote completed! Winner: " ++ tr.winner_cid.take 16 ++
               "... (natural completion)"⟩) := by
    unfold computeVoteResult
    simp [h7]
  have hf : falsyStr v.id = false := by rw [h1]; exact falsyStr_some_false vid h2
  refine ⟨⟨v, { winner_cid := tr.winner_cid
                tally := tr.tally
                participation :=
                  if tr.tally = [] then 0 else (tr.tally.map (·.2)).sum },
           false, none⟩, ?_, rfl, rfl, rfl⟩
  simp [tally_vote_agent, hf, hnat, hres]

/-- C4 witness: the amended theorem at the always-open nonzero source
`c4o`, which accumulates all 30 polls. -/
theorem smart_completion_post_loop_witness :
    ((⟨some "vote-1"⟩ : VoteIn).id = some "vote-1"
     ∧ "vote-1" ≠ ""
     ∧ c4o.status (pollsPerformed c4o + 1) = .ok ⟨true, [5], some 1000000⟩
     ∧ (⟨true, [5], some 1000000⟩ : VoteStatusM).isOpen = true
     ∧ (⟨true, [5], some 1000000⟩ : VoteStatusM).tallies.any
         (fun x => decide (0 < x)) = true
     ∧ 12 ≤ pollsPerformed c4o
     ∧ c4o.tallyRes = .ok ⟨"QmWinner", [("1", 5)]⟩)
    ∧ ∃ uv, (tally_vote_agent (some ⟨some "vote-1"⟩) (some ⟨["cid0"]⟩) c4o).vote =
          some uv
        ∧ uv.result.winner_cid = "QmWinner"
        ∧ uv.result.tally = [("1", 5)]
        ∧ uv.fallback = false := by
  refine ⟨⟨rfl, by decide, rfl, rfl, by decide, by decide, rfl⟩, ?_⟩
  exact smart_completion_post_loop c4o ⟨some "vote-1"⟩ ⟨["cid0"]⟩ "vote-1"
    ⟨true, [5], some 1000000⟩ ⟨"QmWinner", [("1", 5)]⟩ rfl (by decide) rfl rfl
    (by decide) (by decide) rfl

/-- C10: whenever the stage resolves through the natural-completion
path with a successful authoritative tally, the participation of the
returned vote result equals the sum of the counts of its tally mapping
(zero for an empty tally, which is also that sum). -/
theorem natural_tally_participation_sum (o : MCPOracle) (v : VoteIn) (a : ArtIn)
    (vid : String) (tr : TallyResultM)
    (h1 : v.id = some vid) (h2 : vid ≠ "")
    (h3 : (resolveAfterLoop o (pollsPerformed o)).1 = true)
    (h4 : o.tallyRes = .ok tr) :
    ∃ uv, (tally_vote_agent (some v) (some a) o).vote = some uv
      ∧ uv.result.participation = (uv.result.tally.map (·.2)).sum := by
  have hf : falsyStr v.id = false := by rw [h1]; exact falsyStr_some_false vid h2
  have hres : computeVoteResult o a.cids true =
      .ok ({ winner_cid := tr.winner_cid
             tally := tr.tally
             participation :=
               if tr.tally = [] then 0 else (tr.tally.map (·.2)).sum },
           ⟨"Vote", "success",
             "🎉 Vote completed! Winner: " ++ tr.winner_cid.take 16 ++
               "... (natural completion)"⟩) := by
    unfold computeVoteResult
    simp [h4]
  refine ⟨⟨v, { winner_cid := tr.winner_cid
                tally := tr.tally
                participation :=
                  if tr.tally = [] then 0 else (tr.tally.map (·.2)).sum },
           false, none⟩, ?_, ?_⟩
  · simp [tally_vote_agent, hf, h3, hres]
  · by_cases he : tr.tally = []
    · simp [he]
    · simp [he]

/-- C10 witness: the theorem at a vote that closes on the first poll
with tally counts 3 and 2, so participation is 5. -/
theorem natural_tally_participation_sum_witness :
    ((resolveAfterLoop oClosed (pollsPerformed oClosed)).1 = true
     ∧ oClosed.tallyRes = .ok ⟨"QmWinner", [("0", 3), ("1", 2)]⟩)
    ∧ ∃ uv, (tally_vote_agent (some ⟨some "vote-1"⟩)
          (some ⟨["cid0"]⟩) oClosed).vote = some uv
        ∧ uv.result.participation = (uv.result.tally.map (·.2)).sum := by
  refine ⟨⟨by decide, rfl⟩, ?_⟩
  exact natural_tally_participation_sum oClosed ⟨some "vote-1"⟩ ⟨["cid0"]⟩ "vote-1"
    ⟨"QmWinner", [("0", 3), ("1", 2)]⟩ rfl (by decide) (by decide) rfl

set_option maxRecDepth 100000 in
/-- C8 counterexample: the lore stage does not always convert a
collaborator failure into a fallback partial.  With a 68-word
`date_label`, the fallback summary (which interpolates the label twice
on top of 65 fixed words) exceeds 200 words, so the `except` branch of
`lore_agent` itself raises `ValueError` from `validate_lore_pack` and
no partial update is returned at all — neither a fallback artifact nor
an `error` field. -/
theorem lore_fallback_validation_escape_counterexample :
    (lore_agent dl68 false none (.error "LLM unavailable")).isOk = false := by
  decide

/-- C8 (amended): a stage whose collaborator fails returns a partial
update carrying a deterministic fallback artifact for its stage output
plus a warning-severity message — for the artist stage
unconditionally, and for the lore stage provided the fallback pack
passes validation against the run date label (its summary stays within
200 words); with a longer label the lore stage raises instead of
returning a partial (see the counterexample). -/
theorem stage_collaborator_failure_fallback (dl : String) (regen : Bool)
    (einstr : Option String) (e : String) (lp : LorePackM) (dl2 : String)
    (o : ArtistOracle) (err : String)
    (h1 : validate_lore_pack (fallback_lore_pack dl) dl = .ok ())
    (h2 : artist_inner o = .error err) :
    (∃ out, lore_agent dl regen einstr (.error e) = .ok out
      ∧ out.lore = some (fallback_lore_pack dl)
      ∧ ∃ m ∈ out.messages, m.level = "warning")
    ∧ (∃ aset, (artist_agent (some lp) dl2 o).art = some aset
      ∧ ∃ m ∈ (artist_agent (some lp) dl2 o).messages, m.level = "warning") := by
  constructor
  · refine ⟨{ lore := some (fallback_lore_pack dl)
              checkpoint := none
              messages := [⟨"Lore", "warning",
                "Research error for " ++ dl ++ ", using fallback content: " ++
                  e.take 100 ++ "..."⟩] }, ?_, rfl, ?_⟩
    · simp [lore_agent, h1]
    · refine ⟨⟨"Lore", "warning",
        "Research error for " ++ dl ++ ", using fallback content: " ++
          e.take 100 ++ "..."⟩, by simp, rfl⟩
  · refine ⟨⟨["ipfs://placeholder_art_1"], ["ipfs://placeholder_thumb_1"],
        ["Image generation or IPFS pinning failed for variation 1"]⟩, ?_, ?_⟩
    · simp [artist_agent, h2]
    · refine ⟨⟨"Artist", "warning",
        "Image 1/" ++ toString (create_image_prompts lp.prompt_seed dl2).length ++
          " generation/pinning failed: " ++ err.take 50⟩, ?_, rfl⟩
      simp [artist_agent, h2]

/-- C8 witness: the amended theorem at an ordinary short date label and
an artist whose image generation raises. -/
theorem stage_collaborator_failure_fallback_witness :
    (validate_lore_pack (fallback_lore_pack "July 20, 1969") "July 20, 1969" = .ok ()
     ∧ artist_inner ⟨.error "OpenAI API error", true, none, none, none⟩ =
         .error "OpenAI API error")
    ∧ ((∃ out, lore_agent "July 20, 1969" false none (.error "LLM unavailable") =
          .ok out
        ∧ out.lore = some (fallback_lore_pack "July 20, 1969")
        ∧ ∃ m ∈ out.messages, m.level = "warning")
      ∧ (∃ aset, (artist_agent (some (fallback_lore_pack "July 20, 1969"))
            "July 20, 1969"
            ⟨.error "OpenAI API error", true, none, none, none⟩).art = some aset
        ∧ ∃ m ∈ (artist_agent (some (fallback_lore_pack "July 20, 1969"))
            "July 20, 1969"
            ⟨.error "OpenAI API error", true, none, none, none⟩).messages,
            m.level = "warning")) := by
  have h1 : validate_lore_pack (fallback_lore_pack "July 20, 1969") "July 20, 1969" =
      .ok () := by
    set_option maxRecDepth 100000 in rfl
  refine ⟨⟨h1, rfl⟩, ?_⟩
  exact stage_collaborator_failure_fallback "July 20, 1969" false none
    "LLM unavailable" (fallback_lore_pack "July 20, 1969") "July 20, 1969"
    ⟨.error "OpenAI API error", true, none, none, none⟩ "OpenAI API error" h1 rfl

